import Mathlib

/-!
Shallow embedding of `src/api/submit-form.js` (the AirTable form-submission
relay) and verification of its specification claims.

JavaScript values that can appear as form fields are modelled by `JVal`
(strings, booleans, `null`, and `undefined` for absent keys).  The handler is
embedded as a total Lean function over an explicit environment, the parsed
request, and the upstream HTTP response; the single outbound `fetch` is
recorded in the result so that claims about the outbound call are statable.
-/

namespace SubmitForm

/-- A JavaScript value as it can appear in the inbound form body:
a string, a boolean, `null`, or `undefined` (a missing key). -/
inductive JVal where
  | str : String → JVal
  | bool : Bool → JVal
  | null : JVal
  | undef : JVal
deriving DecidableEq

/-- `typeof value === 'boolean'`. -/
def JVal.isBool : JVal → Bool
  | .bool _ => true
  | _ => false

/-- JavaScript truthiness of a `JVal` (used by `||` and by `recordId && ...`). -/
def jsTruthy : JVal → Bool
  | .str s => s != ""
  | .bool b => b
  | .null => false
  | .undef => false

/-- JavaScript `v || d`: the left operand when truthy, otherwise the default. -/
def jsOr (v d : JVal) : JVal := if jsTruthy v then v else d

/-- JavaScript string interpolation of a value (template literals). -/
def jsToString : JVal → String
  | .str s => s
  | .bool b => if b then "true" else "false"
  | .null => "null"
  | .undef => "undefined"

/-- The nested `document_status` sub-mapping of the inbound body; a missing
sub-key is `JVal.undef`. -/
structure DocStatus where
  air_waybill : JVal
  bill_of_lading : JVal
  courier_receipt : JVal
  commercial_invoice : JVal
  packing_list : JVal
  export_declaration : JVal
  msds : JVal
deriving DecidableEq

/-- The inbound submission: every field of the request body that the handler
reads.  A field the body does not carry is `JVal.undef`; `document_status` is
`none` when absent or `null` (optional chaining then yields `undefined`). -/
structure FormData where
  first_name : JVal
  last_name : JVal
  email : JVal
  phone : JVal
  company_name : JVal
  customer_type : JVal
  consent_checkbox : JVal
  direction : JVal
  goods_location : JVal
  arrival_method : JVal
  arrival_timeline : JVal
  customs_code_status : JVal
  customs_code_number : JVal
  export_service_needed : JVal
  destination_country : JVal
  shipping_payment : JVal
  local_delivery : JVal
  needs_port_delivery : JVal
  delivery_address : JVal
  shipment_method : JVal
  container_type : JVal
  air_weight_category : JVal
  cargo_type : JVal
  cargo_details : JVal
  other_cargo_description : JVal
  personal_item_condition : JVal
  personal_item_mixed : JVal
  requires_temperature_control : JVal
  packing_info_combined : JVal
  document_status : Option DocStatus
  status : JVal
  session_id : JVal
  airtable_record_id : JVal
deriving DecidableEq

/-- `formData.document_status?.f`: optional chaining into the sub-mapping. -/
def docStatusGet (d : Option DocStatus) (f : DocStatus → JVal) : JVal :=
  match d with
  | none => .undef
  | some ds => f ds

/-- The `rawPayload` object literal of the source, as an ordered key-value
list.  The two object spreads guarded by `formData.direction === 'import'`
and `=== 'export'` become conditionally inserted segments. -/
def rawPayload (fd : FormData) : List (String × JVal) :=
  [("first_name", fd.first_name),
   ("last_name", fd.last_name),
   ("email", fd.email),
   ("phone", fd.phone),
   ("company_name", fd.company_name),
   ("customer_type", fd.customer_type),
   ("consent_checkbox", fd.consent_checkbox),
   ("direction", fd.direction)]
  ++ (if fd.direction = .str "import" then
        [("goods_location", fd.goods_location),
         ("arrival_method", fd.arrival_method),
         ("arrival_timeline", fd.arrival_timeline),
         ("customs_code_status", fd.customs_code_status),
         ("customs_code_number", fd.customs_code_number)]
      else [])
  ++ (if fd.direction = .str "export" then
        [("export_service_needed", fd.export_service_needed),
         ("destination_country", fd.destination_country)]
      else [])
  ++ [("shipping_payment", fd.shipping_payment),
      ("local_delivery", fd.local_delivery),
      ("needs_port_delivery", fd.needs_port_delivery),
      ("delivery_address", fd.delivery_address),
      ("shipment_method", fd.shipment_method),
      ("container_type", fd.container_type),
      ("air_weight_category", fd.air_weight_category),
      ("cargo_type", fd.cargo_type),
      ("cargo_details", fd.cargo_details),
      ("other_cargo_description", fd.other_cargo_description),
      ("personal_item_condition", fd.personal_item_condition),
      ("personal_item_mixed", jsOr fd.personal_item_mixed (.bool false)),
      ("requires_temperature_control", jsOr fd.requires_temperature_control (.bool false)),
      ("packing_info_combined", fd.packing_info_combined),
      ("air_waybill_status", docStatusGet fd.document_status DocStatus.air_waybill),
      ("bill_of_lading_status", docStatusGet fd.document_status DocStatus.bill_of_lading),
      ("courier_receipt_status", docStatusGet fd.document_status DocStatus.courier_receipt),
      ("commercial_invoice_status", docStatusGet fd.document_status DocStatus.commercial_invoice),
      ("packing_list_status", docStatusGet fd.document_status DocStatus.packing_list),
      ("export_declaration_status", docStatusGet fd.document_status DocStatus.export_declaration),
      ("msds_status", docStatusGet fd.document_status DocStatus.msds),
      ("status", jsOr fd.status (.str "completed")),
      ("session_id", fd.session_id),
      ("reminder_sent", .bool false),
      ("follow_up_sent", .bool false),
      ("sales_manager_notified", .bool false),
      ("email_sequence_stage", .str "none")]

/-- The filter condition of the cleaning loop:
`typeof value === 'boolean' || (value !== '' && value !== undefined && value !== null)`. -/
def keepVal (v : JVal) : Bool :=
  v.isBool || (!(v == .str "") && !(v == .undef) && !(v == .null))

/-- `cleanedFields`: the raw payload with empty strings, `undefined` and
`null` removed (booleans always kept). -/
def cleanedFields (fd : FormData) : List (String × JVal) :=
  (rawPayload fd).filter (fun kv => keepVal kv.2)

/-- A value that the cleaning step is meant to drop: the empty string,
`undefined`, or `null`. -/
def badVal (v : JVal) : Bool :=
  (v == .str "") || (v == .undef) || (v == .null)

/-- The inbound value that feeds a given key of the raw payload.  The four
email-automation-tracking keys take no inbound value at all (the handler
never reads them), so their source is `undefined`; the same fallback applies
to keys that never occur in the payload. -/
def inboundSource (fd : FormData) (k : String) : JVal :=
  if k = "first_name" then fd.first_name
  else if k = "last_name" then fd.last_name
  else if k = "email" then fd.email
  else if k = "phone" then fd.phone
  else if k = "company_name" then fd.company_name
  else if k = "customer_type" then fd.customer_type
  else if k = "consent_checkbox" then fd.consent_checkbox
  else if k = "direction" then fd.direction
  else if k = "goods_location" then fd.goods_location
  else if k = "arrival_method" then fd.arrival_method
  else if k = "arrival_timeline" then fd.arrival_timeline
  else if k = "customs_code_status" then fd.customs_code_status
  else if k = "customs_code_number" then fd.customs_code_number
  else if k = "export_service_needed" then fd.export_service_needed
  else if k = "destination_country" then fd.destination_country
  else if k = "shipping_payment" then fd.shipping_payment
  else if k = "local_delivery" then fd.local_delivery
  else if k = "needs_port_delivery" then fd.needs_port_delivery
  else if k = "delivery_address" then fd.delivery_address
  else if k = "shipment_method" then fd.shipment_method
  else if k = "container_type" then fd.container_type
  else if k = "air_weight_category" then fd.air_weight_category
  else if k = "cargo_type" then fd.cargo_type
  else if k = "cargo_details" then fd.cargo_details
  else if k = "other_cargo_description" then fd.other_cargo_description
  else if k = "personal_item_condition" then fd.personal_item_condition
  else if k = "personal_item_mixed" then fd.personal_item_mixed
  else if k = "requires_temperature_control" then fd.requires_temperature_control
  else if k = "packing_info_combined" then fd.packing_info_combined
  else if k = "air_waybill_status" then docStatusGet fd.document_status DocStatus.air_waybill
  else if k = "bill_of_lading_status" then docStatusGet fd.document_status DocStatus.bill_of_lading
  else if k = "courier_receipt_status" then docStatusGet fd.document_status DocStatus.courier_receipt
  else if k = "commercial_invoice_status" then docStatusGet fd.document_status DocStatus.commercial_invoice
  else if k = "packing_list_status" then docStatusGet fd.document_status DocStatus.packing_list
  else if k = "export_declaration_status" then docStatusGet fd.document_status DocStatus.export_declaration
  else if k = "msds_status" then docStatusGet fd.document_status DocStatus.msds
  else if k = "status" then fd.status
  else if k = "session_id" then fd.session_id
  else (.undef)

/-- One hexadecimal digit, upper case. -/
def hexDigit (n : Nat) : Char :=
  if n < 10 then Char.ofNat (48 + n) else Char.ofNat (55 + n)

/-- Percent-encoding of one byte. -/
def percentByte (b : Nat) : String :=
  String.mk ['%', hexDigit (b / 16), hexDigit (b % 16)]

/-- UTF-8 bytes of a code point. -/
def utf8Bytes (n : Nat) : List Nat :=
  if n < 128 then [n]
  else if n < 2048 then [192 + n / 64, 128 + n % 64]
  else if n < 65536 then [224 + n / 4096, 128 + (n / 64) % 64, 128 + n % 64]
  else [240 + n / 262144, 128 + (n / 4096) % 64, 128 + (n / 64) % 64, 128 + n % 64]

/-- The characters `encodeURIComponent` leaves unescaped. -/
def uriUnreserved (c : Char) : Bool :=
  (65 ≤ c.toNat && c.toNat ≤ 90) || (97 ≤ c.toNat && c.toNat ≤ 122) ||
  (48 ≤ c.toNat && c.toNat ≤ 57) ||
  c = '-' || c = '_' || c = '.' || c = '!' || c.toNat = 126 || c = '*' ||
  c.toNat = 39 || c = '(' || c = ')'

/-- JavaScript `encodeURIComponent`. -/
def encodeURIComponent (s : String) : String :=
  String.join (s.data.map (fun c =>
    if uriUnreserved c then String.mk [c]
    else String.join ((utf8Bytes c.toNat).map percentByte)))

/-- Process configuration: the two environment variables the handler reads.
`none` models an unset variable. -/
structure Env where
  AIRTABLE_API_KEY : Option String
  AIRTABLE_BASE_ID : Option String
deriving DecidableEq

/-- The inbound HTTP request: its method and parsed JSON body. -/
structure Req where
  method : String
  body : FormData
deriving DecidableEq

/-- The single outbound `fetch` call: method, URL, authorization header
value, and the `fields` object of the JSON body. -/
structure OutboundCall where
  method : String
  url : String
  authorization : String
  fields : List (String × JVal)
deriving DecidableEq

/-- The upstream AirTable response: `ok` is the 2xx flag, `errMessage` is
`errorData.error?.message` of a non-2xx JSON body (as a string when present),
and `id` is `result.id` of a 2xx JSON body. -/
structure UpstreamResp where
  ok : Bool
  errMessage : Option String
  id : Option String
deriving DecidableEq

/-- The JSON body of the relay's own response. -/
inductive ResBody where
  | empty : ResBody
  | ok : Option String → String → ResBody
  | err : String → ResBody
deriving DecidableEq

/-- The observable outcome of one request: HTTP status, response body, and
the outbound call that was issued, if any. -/
structure HandlerResult where
  status : Nat
  body : ResBody
  outbound : Option OutboundCall
deriving DecidableEq

def AIRTABLE_TABLE_NAME : String := "Form Submissions"

/-- `process.env.AIRTABLE_BASE_ID || 'appTll6JoqW04YvJs'`. -/
def baseIdOf (env : Env) : String :=
  match env.AIRTABLE_BASE_ID with
  | some s => if s != "" then s else "appTll6JoqW04YvJs"
  | none => "appTll6JoqW04YvJs"

/-- The collection URL (no record-id segment). -/
def collectionUrl (env : Env) : String :=
  "https://api.airtable.com/v0/" ++ baseIdOf env ++ "/" ++
    encodeURIComponent AIRTABLE_TABLE_NAME

/-- The catch block's message selection: `error.message || 'Internal server error'`. -/
def catchMsg (m : String) : String :=
  if m != "" then m else "Internal server error"

/-- The generic upstream-failure message. -/
def airtableFallback : String := "Failed to submit to AirTable"

/-- The embedded `submitToAirTable` handler.  CORS headers are set
unconditionally in the source and carry no claim, so they are not modelled.
Thrown errors are routed to the catch block, which produces the 500
responses seen here; the outbound call is `none` exactly when the source
never reaches `fetch`. -/
def handler (env : Env) (upstream : UpstreamResp) (req : Req) : HandlerResult :=
  if req.method = "OPTIONS" then
    ⟨200, .empty, none⟩
  else if req.method ≠ "POST" ∧ req.method ≠ "PATCH" then
    ⟨405, .err "Method not allowed", none⟩
  else
    let fd := req.body
    let recordId := fd.airtable_record_id
    let apiKey := env.AIRTABLE_API_KEY.getD ""
    if apiKey = "" then
      ⟨500, .err (catchMsg "AirTable API key not configured"), none⟩
    else
      let isUpdate := jsTruthy recordId && !(recordId == .str "")
      let url :=
        if isUpdate then collectionUrl env ++ "/" ++ jsToString recordId
        else collectionUrl env
      let call : OutboundCall :=
        ⟨if isUpdate then "PATCH" else "POST", url, "Bearer " ++ apiKey,
         cleanedFields fd⟩
      if upstream.ok then
        ⟨200, .ok upstream.id "Form submitted successfully", some call⟩
      else
        let msg :=
          match upstream.errMessage with
          | some m => if m != "" then m else airtableFallback
          | none => airtableFallback
        ⟨500, .err (catchMsg msg), some call⟩

/-- A request body carrying no fields at all. -/
def blankForm : FormData :=
  { first_name := .undef, last_name := .undef, email := .undef,
    phone := .undef, company_name := .undef, customer_type := .undef,
    consent_checkbox := .undef, direction := .undef,
    goods_location := .undef, arrival_method := .undef,
    arrival_timeline := .undef, customs_code_status := .undef,
    customs_code_number := .undef, export_service_needed := .undef,
    destination_country := .undef, shipping_payment := .undef,
    local_delivery := .undef, needs_port_delivery := .undef,
    delivery_address := .undef, shipment_method := .undef,
    container_type := .undef, air_weight_category := .undef,
    cargo_type := .undef, cargo_details := .undef,
    other_cargo_description := .undef, personal_item_condition := .undef,
    personal_item_mixed := .undef, requires_temperature_control := .undef,
    packing_info_combined := .undef, document_status := none,
    status := .undef, session_id := .undef, airtable_record_id := .undef }

/-- An environment with the API key configured and the base id unset. -/
def envOk : Env := ⟨some "key123", none⟩

/-- An environment with the API key unset. -/
def envNoKey : Env := ⟨none, none⟩

/-- A successful upstream response carrying a record id. -/
def upOk : UpstreamResp := ⟨true, none, some "rec123"⟩

/-- A failed upstream response with a non-empty error message. -/
def upErr : UpstreamResp := ⟨false, some "Invalid field", none⟩

/-- A failed upstream response whose error message is the empty string. -/
def upErrEmpty : UpstreamResp := ⟨false, some "", none⟩

/-- A failed upstream response with no error message. -/
def upErrNone : UpstreamResp := ⟨false, none, none⟩

section Lemmas

/-- Membership in a conditionally inserted segment of the payload list. -/
theorem mem_ite_nil {α : Type} {c : Prop} [Decidable c] {a : α} {l : List α} :
    (a ∈ if c then l else []) ↔ c ∧ a ∈ l := by
  by_cases h : c <;> simp [h]

/-- A value both kept by the filter and empty, undefined, or null must be a
boolean. -/
theorem keep_bad_isBool (v : JVal) (h1 : keepVal v = true) (h2 : badVal v = true) :
    v.isBool = true := by
  cases v <;> simp_all [keepVal, badVal, JVal.isBool]

/-- Defaulting a falsy value with `|| false` yields a boolean. -/
theorem jsOr_bad (w : JVal) (h : badVal w = true) :
    (jsOr w (JVal.bool false)).isBool = true := by
  cases w <;> simp_all [badVal, jsOr, jsTruthy, JVal.isBool]

/-- A kept value is neither undefined nor null. -/
theorem keep_not_bad (v : JVal) (h : keepVal v = true) :
    v ≠ JVal.undef ∧ v ≠ JVal.null := by
  cases v <;> simp_all [keepVal, JVal.isBool]

/-- A key every raw-payload occurrence of which is dropped by the filter is
absent from the cleaned payload. -/
theorem key_not_mem_cleaned (fd : FormData) (k : String)
    (h : ∀ v, (k, v) ∈ rawPayload fd → keepVal v = false) :
    k ∉ (cleanedFields fd).map Prod.fst := by
  intro hk
  obtain ⟨⟨k2, v⟩, hmem, hfst⟩ := List.mem_map.mp hk
  obtain ⟨hraw2, hkeep2⟩ := List.mem_filter.mp hmem
  simp only at hfst hkeep2
  subst hfst
  rw [h v hraw2] at hkeep2
  cases hkeep2

end Lemmas

/-- C9: an OPTIONS request is answered 200 with an empty body; the result
does not depend on the request body (the handler never reads it) and no
outbound call is made. -/
theorem c9_options (env : Env) (upstream : UpstreamResp) (fd : FormData) :
    handler env upstream ⟨"OPTIONS", fd⟩ = ⟨200, .empty, none⟩ := rfl

/-- C8: any method outside OPTIONS, POST, PATCH is answered 405 with the
method-not-allowed error body, and no outbound call is made. -/
theorem c8_method_gate (env : Env) (upstream : UpstreamResp) (fd : FormData)
    (m : String) (h1 : m ≠ "OPTIONS") (h2 : m ≠ "POST") (h3 : m ≠ "PATCH") :
    handler env upstream ⟨m, fd⟩ = ⟨405, .err "Method not allowed", none⟩ := by
  simp [handler, h1, h2, h3]

theorem c8_method_gate_witness :
    handler envOk upOk ⟨"GET", blankForm⟩ = ⟨405, .err "Method not allowed", none⟩ :=
  c8_method_gate envOk upOk blankForm "GET" (by decide) (by decide) (by decide)

/-- C7: a POST or PATCH request processed with the API key unset yields a
500 response with a structured error body, no outbound call, and no escape
of the error (the handler is a total function). -/
theorem c7_missing_key (env : Env) (upstream : UpstreamResp) (fd : FormData)
    (m : String) (hm : m = "POST" ∨ m = "PATCH")
    (hkey : env.AIRTABLE_API_KEY = none) :
    handler env upstream ⟨m, fd⟩ =
      ⟨500, .err "AirTable API key not configured", none⟩ := by
  rcases hm with rfl | rfl <;> simp [handler, hkey, catchMsg]

theorem c7_missing_key_witness :
    handler envNoKey upOk ⟨"POST", blankForm⟩ =
      ⟨500, .err "AirTable API key not configured", none⟩ :=
  c7_missing_key envNoKey upOk blankForm "POST" (Or.inl rfl) rfl

/-- C5: when the outbound call succeeds with a body carrying an id, the
relay answers 200 with success, that record id, and the fixed message. -/
theorem c5_success (env : Env) (upstream : UpstreamResp) (fd : FormData)
    (m : String) (ks : String) (i : String)
    (hm : m = "POST" ∨ m = "PATCH") (hkey : env.AIRTABLE_API_KEY = some ks)
    (hks : ks ≠ "") (hok : upstream.ok = true) (hid : upstream.id = some i) :
    (handler env upstream ⟨m, fd⟩).status = 200 ∧
    (handler env upstream ⟨m, fd⟩).body =
      .ok (some i) "Form submitted successfully" := by
  rcases hm with rfl | rfl <;> simp [handler, hkey, hks, hok, hid]

theorem c5_success_witness :
    (handler envOk upOk ⟨"POST", blankForm⟩).status = 200 ∧
    (handler envOk upOk ⟨"POST", blankForm⟩).body =
      .ok (some "rec123") "Form submitted successfully" :=
  c5_success envOk upOk blankForm "POST" "key123" "rec123"
    (Or.inl rfl) rfl (by decide) rfl rfl

/-- C4 (amended): on a non-2xx outbound response, a non-empty upstream
error message is echoed in a 500 error body; an absent or empty upstream
error message yields the generic fallback message. -/
theorem c4_upstream_error (env : Env) (upstream : UpstreamResp) (fd : FormData)
    (m : String) (ks : String)
    (hm : m = "POST" ∨ m = "PATCH") (hkey : env.AIRTABLE_API_KEY = some ks)
    (hks : ks ≠ "") (hfail : upstream.ok = false) :
    (∀ msg, msg ≠ "" → upstream.errMessage = some msg →
      (handler env upstream ⟨m, fd⟩).status = 500 ∧
      (handler env upstream ⟨m, fd⟩).body = .err msg) ∧
    ((upstream.errMessage = none ∨ upstream.errMessage = some "") →
      (handler env upstream ⟨m, fd⟩).status = 500 ∧
      (handler env upstream ⟨m, fd⟩).body = .err airtableFallback) := by
  constructor
  · intro msg hmsg hsome
    rcases hm with rfl | rfl <;>
      simp [handler, hkey, hks, hfail, hsome, catchMsg, hmsg]
  · intro hnone
    rcases hnone with hnone | hnone <;> rcases hm with rfl | rfl <;>
      simp [handler, hkey, hks, hfail, hnone, catchMsg, airtableFallback]

theorem c4_upstream_error_witness :
    (handler envOk upErr ⟨"POST", blankForm⟩).status = 500 ∧
    (handler envOk upErr ⟨"POST", blankForm⟩).body = .err "Invalid field" :=
  (c4_upstream_error envOk upErr blankForm "POST" "key123"
      (Or.inl rfl) rfl (by decide) rfl).1 "Invalid field" (by decide) rfl

/-- C4 counterexample: an upstream error body whose error message is
present but empty is not echoed; the relay answers with the generic
fallback message instead of the empty message the claim prescribes. -/
theorem c4_counterexample :
    upErrEmpty.ok = false ∧ upErrEmpty.errMessage = some "" ∧
    (handler envOk upErrEmpty ⟨"POST", blankForm⟩).status = 500 ∧
    (handler envOk upErrEmpty ⟨"POST", blankForm⟩).body ≠ ResBody.err "" ∧
    (handler envOk upErrEmpty ⟨"POST", blankForm⟩).body =
      ResBody.err "Failed to submit to AirTable" := by
  refine ⟨rfl, rfl, rfl, ?_, rfl⟩
  decide

/-- C3: with a record id that is a non-empty string, the single outbound
call is a PATCH to the collection URL extended by that id; with the record
id absent or empty, it is a POST to the bare collection URL. -/
theorem c3_dispatch (env : Env) (upstream : UpstreamResp) (fd : FormData)
    (m : String) (ks : String)
    (hm : m = "POST" ∨ m = "PATCH") (hkey : env.AIRTABLE_API_KEY = some ks)
    (hks : ks ≠ "") :
    (∀ s, s ≠ "" → fd.airtable_record_id = .str s →
      (handler env upstream ⟨m, fd⟩).outbound =
        some ⟨"PATCH", collectionUrl env ++ "/" ++ s, "Bearer " ++ ks,
              cleanedFields fd⟩) ∧
    ((fd.airtable_record_id = .undef ∨ fd.airtable_record_id = .str "") →
      (handler env upstream ⟨m, fd⟩).outbound =
        some ⟨"POST", collectionUrl env, "Bearer " ++ ks, cleanedFields fd⟩) := by
  constructor
  · intro s hs hrec
    rcases hm with rfl | rfl <;> cases hok : upstream.ok <;>
      simp [handler, hkey, hks, hrec, hok, jsTruthy, jsToString, hs]
  · intro hrec
    rcases hrec with hrec | hrec <;> rcases hm with rfl | rfl <;>
      cases hok : upstream.ok <;>
        simp [handler, hkey, hks, hrec, hok, jsTruthy]

/-- A body carrying a record id, used to exercise the update path. -/
def updateForm : FormData := { blankForm with airtable_record_id := .str "recXYZ" }

theorem c3_dispatch_witness :
    (handler envOk upOk ⟨"PATCH", updateForm⟩).outbound =
      some ⟨"PATCH", collectionUrl envOk ++ "/" ++ "recXYZ", "Bearer " ++ "key123",
            cleanedFields updateForm⟩ ∧
    (handler envOk upOk ⟨"POST", blankForm⟩).outbound =
      some ⟨"POST", collectionUrl envOk, "Bearer " ++ "key123",
            cleanedFields blankForm⟩ :=
  ⟨(c3_dispatch envOk upOk updateForm "PATCH" "key123"
      (Or.inr rfl) rfl (by decide)).1 "recXYZ" (by decide) rfl,
   (c3_dispatch envOk upOk blankForm "POST" "key123"
      (Or.inl rfl) rfl (by decide)).2 (Or.inl rfl)⟩

/-- C2: with direction import, each of the five import-specific fields is
included whenever its inbound value passes the keep filter, and neither
export-specific key occurs in the payload; symmetrically for direction
export. -/
theorem c2_direction (fd : FormData) :
    (fd.direction = .str "import" →
      ((keepVal fd.goods_location = true →
          ("goods_location", fd.goods_location) ∈ cleanedFields fd) ∧
       (keepVal fd.arrival_method = true →
          ("arrival_method", fd.arrival_method) ∈ cleanedFields fd) ∧
       (keepVal fd.arrival_timeline = true →
          ("arrival_timeline", fd.arrival_timeline) ∈ cleanedFields fd) ∧
       (keepVal fd.customs_code_status = true →
          ("customs_code_status", fd.customs_code_status) ∈ cleanedFields fd) ∧
       (keepVal fd.customs_code_number = true →
          ("customs_code_number", fd.customs_code_number) ∈ cleanedFields fd) ∧
       (∀ v, ("export_service_needed", v) ∉ cleanedFields fd) ∧
       (∀ v, ("destination_country", v) ∉ cleanedFields fd))) ∧
    (fd.direction = .str "export" →
      ((keepVal fd.export_service_needed = true →
          ("export_service_needed", fd.export_service_needed) ∈ cleanedFields fd) ∧
       (keepVal fd.destination_country = true →
          ("destination_country", fd.destination_country) ∈ cleanedFields fd) ∧
       (∀ v, ("goods_location", v) ∉ cleanedFields fd) ∧
       (∀ v, ("arrival_method", v) ∉ cleanedFields fd) ∧
       (∀ v, ("arrival_timeline", v) ∉ cleanedFields fd) ∧
       (∀ v, ("customs_code_status", v) ∉ cleanedFields fd) ∧
       (∀ v, ("customs_code_number", v) ∉ cleanedFields fd))) := by
  constructor <;> intro hdir <;> refine ⟨?_, ?_, ?_, ?_, ?_, ?_, ?_⟩ <;>
    first
      | (intro hkv
         exact List.mem_filter.mpr
           ⟨by simp [rawPayload, mem_ite_nil, hdir], hkv⟩)
      | (intro v hv
         simp [cleanedFields, List.mem_filter, rawPayload, mem_ite_nil,
           hdir] at hv)

/-- A body for the import direction with one import field set. -/
def importForm : FormData :=
  { blankForm with direction := .str "import",
                   goods_location := .str "Warehouse A" }

/-- A body for the export direction with one export field set. -/
def exportForm : FormData :=
  { blankForm with direction := .str "export",
                   destination_country := .str "Germany" }

theorem c2_direction_witness :
    ("goods_location", JVal.str "Warehouse A") ∈ cleanedFields importForm ∧
    ("export_service_needed", JVal.str "x") ∉ cleanedFields importForm ∧
    ("destination_country", JVal.str "Germany") ∈ cleanedFields exportForm ∧
    ("goods_location", JVal.str "x") ∉ cleanedFields exportForm :=
  ⟨((c2_direction importForm).1 rfl).1 (by decide),
   ((c2_direction importForm).1 rfl).2.2.2.2.2.1 (JVal.str "x"),
   ((c2_direction exportForm).2 rfl).2.1 (by decide),
   ((c2_direction exportForm).2 rfl).2.2.1 (JVal.str "x")⟩

/-- C6: the two boolean flags default to false when absent, the status
field defaults to completed when absent, and the four automation-tracking
fields always carry their fixed values, all surviving the cleaning step. -/
theorem c6_defaults (fd : FormData) :
    (fd.personal_item_mixed = .undef →
      ("personal_item_mixed", JVal.bool false) ∈ cleanedFields fd) ∧
    (fd.requires_temperature_control = .undef →
      ("requires_temperature_control", JVal.bool false) ∈ cleanedFields fd) ∧
    (fd.status = .undef →
      ("status", JVal.str "completed") ∈ cleanedFields fd) ∧
    ("reminder_sent", JVal.bool false) ∈ cleanedFields fd ∧
    ("follow_up_sent", JVal.bool false) ∈ cleanedFields fd ∧
    ("sales_manager_notified", JVal.bool false) ∈ cleanedFields fd ∧
    ("email_sequence_stage", JVal.str "none") ∈ cleanedFields fd := by
  refine ⟨fun h => ?_, fun h => ?_, fun h => ?_, ?_, ?_, ?_, ?_⟩ <;>
    exact List.mem_filter.mpr
      ⟨by simp [rawPayload, mem_ite_nil, jsOr, jsTruthy, *], by rfl⟩

theorem c6_defaults_witness :
    ("personal_item_mixed", JVal.bool false) ∈ cleanedFields blankForm ∧
    ("status", JVal.str "completed") ∈ cleanedFields blankForm ∧
    ("email_sequence_stage", JVal.str "none") ∈ cleanedFields blankForm :=
  ⟨(c6_defaults blankForm).1 rfl,
   (c6_defaults blankForm).2.2.1 rfl,
   (c6_defaults blankForm).2.2.2.2.2.2⟩

/-- C10: each document-status-derived key is simply omitted from the
cleaned payload whenever its source sub-key is missing (in particular when
the whole document-status sub-mapping is absent), and the cleaned payload
never carries an undefined or null value; the mapping is a total function,
so no error is raised. -/
theorem c10_doc_status (fd : FormData) :
    (docStatusGet fd.document_status DocStatus.air_waybill = .undef →
      "air_waybill_status" ∉ (cleanedFields fd).map Prod.fst) ∧
    (docStatusGet fd.document_status DocStatus.bill_of_lading = .undef →
      "bill_of_lading_status" ∉ (cleanedFields fd).map Prod.fst) ∧
    (docStatusGet fd.document_status DocStatus.courier_receipt = .undef →
      "courier_receipt_status" ∉ (cleanedFields fd).map Prod.fst) ∧
    (docStatusGet fd.document_status DocStatus.commercial_invoice = .undef →
      "commercial_invoice_status" ∉ (cleanedFields fd).map Prod.fst) ∧
    (docStatusGet fd.document_status DocStatus.packing_list = .undef →
      "packing_list_status" ∉ (cleanedFields fd).map Prod.fst) ∧
    (docStatusGet fd.document_status DocStatus.export_declaration = .undef →
      "export_declaration_status" ∉ (cleanedFields fd).map Prod.fst) ∧
    (docStatusGet fd.document_status DocStatus.msds = .undef →
      "msds_status" ∉ (cleanedFields fd).map Prod.fst) ∧
    (∀ kv ∈ cleanedFields fd, kv.2 ≠ JVal.undef ∧ kv.2 ≠ JVal.null) := by
  refine ⟨fun h => ?_, fun h => ?_, fun h => ?_, fun h => ?_, fun h => ?_,
          fun h => ?_, fun h => ?_, fun kv hkv => ?_⟩
  · exact key_not_mem_cleaned fd _ (fun v hv => by
      simp [rawPayload, mem_ite_nil] at hv; rw [hv, h]; rfl)
  · exact key_not_mem_cleaned fd _ (fun v hv => by
      simp [rawPayload, mem_ite_nil] at hv; rw [hv, h]; rfl)
  · exact key_not_mem_cleaned fd _ (fun v hv => by
      simp [rawPayload, mem_ite_nil] at hv; rw [hv, h]; rfl)
  · exact key_not_mem_cleaned fd _ (fun v hv => by
      simp [rawPayload, mem_ite_nil] at hv; rw [hv, h]; rfl)
  · exact key_not_mem_cleaned fd _ (fun v hv => by
      simp [rawPayload, mem_ite_nil] at hv; rw [hv, h]; rfl)
  · exact key_not_mem_cleaned fd _ (fun v hv => by
      simp [rawPayload, mem_ite_nil] at hv; rw [hv, h]; rfl)
  · exact key_not_mem_cleaned fd _ (fun v hv => by
      simp [rawPayload, mem_ite_nil] at hv; rw [hv, h]; rfl)
  · exact keep_not_bad kv.2 (List.mem_filter.mp hkv).2

theorem c10_doc_status_witness :
    "air_waybill_status" ∉ (cleanedFields blankForm).map Prod.fst ∧
    "msds_status" ∉ (cleanedFields blankForm).map Prod.fst :=
  ⟨(c10_doc_status blankForm).1 rfl,
   (c10_doc_status blankForm).2.2.2.2.2.2.1 rfl⟩

/-- C1 (amended): apart from the `status` key (defaulted to a non-empty
string when its inbound value is falsy) and the fixed `email_sequence_stage`
key, the cleaned payload contains no key whose inbound value was the empty
string, undefined, or null, except keys whose payload value is a boolean. -/
theorem c1_no_bad_inbound (fd : FormData) (k : String) (v : JVal)
    (hmem : (k, v) ∈ cleanedFields fd)
    (hbad : badVal (inboundSource fd k) = true)
    (hs : k ≠ "status") (he : k ≠ "email_sequence_stage") :
    v.isBool = true := by
  obtain ⟨hraw, hkeep⟩ := List.mem_filter.mp hmem
  simp [rawPayload, List.mem_append, mem_ite_nil, List.mem_cons,
    Prod.mk.injEq] at hraw
  casesm* Or _ _, And _ _
  all_goals subst_vars
  all_goals first
    | rfl
    | exact absurd rfl hs
    | exact absurd rfl he
    | exact keep_bad_isBool _ hkeep (by simpa [inboundSource] using hbad)
    | exact jsOr_bad _ (by simpa [inboundSource] using hbad)

/-- C1 counterexample: with an entirely empty inbound body, the cleaned
payload still carries the key status with the non-boolean value completed,
although the inbound value of status was undefined. -/
theorem c1_counterexample :
    ("status", JVal.str "completed") ∈ cleanedFields blankForm ∧
    badVal (inboundSource blankForm "status") = true ∧
    JVal.isBool (JVal.str "completed") = false := by
  refine ⟨by decide, by decide, rfl⟩

/-- A body whose mixed-items flag is the empty string. -/
def c1Form : FormData := { blankForm with personal_item_mixed := .str "" }

theorem c1_no_bad_inbound_witness : JVal.isBool (JVal.bool false) = true :=
  c1_no_bad_inbound c1Form "personal_item_mixed" (JVal.bool false)
    (by decide) (by decide) (by decide) (by decide)

end SubmitForm
